import Mathlib

/-!
Verification of the ardayda document-sharing assistant.

This file gives a shallow embedding of the program's persistent store
(`database.py`), its conversation engine (`handlers.py`, the callback
dispatch) and its transport boundary (`bot.py`, `handle_callback`), and
proves or refutes the frozen behavioural claims about them.

Python strings are code-point sequences, so string primitives used by the
program (`startswith`, `replace`-of-a-prefix, `split`, `int(...)`, slicing)
are embedded as operations on the character list `String.data`.
-/

/-- Python `s.startswith(p)`. -/
def pyStartsWith (s p : String) : Bool := List.isPrefixOf p.data s.data

/-- Dropping the first `n` characters of `s`; models Python
`s.replace(p, "", 1)` when `s` is known to start with the prefix `p`
of length `n` (only the leading occurrence is removed). -/
def pyDropChars (s : String) (n : Nat) : String := String.mk (s.data.drop n)

/-- Character length of a string, as Python `len`. -/
def pyLen (s : String) : Nat := s.data.length

/-- Splitting a character list at every occurrence of the separator `c`;
models Python `str.split(sep)` for the one-character separator used by the
program. -/
def splitOnChar (c : Char) : List Char → List (List Char)
  | [] => [[]]
  | x :: xs =>
    match splitOnChar c xs, decide (x = c) with
    | r, true => [] :: r
    | [], false => [[x]]
    | h :: t, false => (x :: h) :: t

/-- Python `s.split("_")`. -/
def pySplitUnderscore (s : String) : List String :=
  (splitOnChar '_' s.data).map String.mk

/-- Digits of a character list read as a base-10 natural number; `none`
as soon as a non-digit occurs. -/
def digitsToNat (l : List Char) : Option Nat :=
  l.foldl
    (fun acc c =>
      match acc with
      | none => none
      | some n => if c.isDigit then some (n * 10 + (c.toNat - 48)) else none)
    (some 0)

/-- Python `int(s)` on the inputs the program feeds it: an optional sign
followed by at least one digit; every other shape raises `ValueError`,
modelled as `none`. -/
def pyToInt (s : String) : Option Int :=
  match s.data with
  | [] => none
  | c :: rest =>
    if c = '-' then
      if rest = [] then none else (digitsToNat rest).map (fun n => -(n : Int))
    else if c = '+' then
      if rest = [] then none else (digitsToNat rest).map (fun n => (n : Int))
    else (digitsToNat (c :: rest)).map (fun n => (n : Int))

/-- Python slice bound resolution for `l[a:b]`: a negative index counts from
the end, and both bounds are clamped into `[0, n]`. -/
def pyBound (n : Nat) (i : Int) : Nat :=
  if i < 0 then (i + n).toNat else min i.toNat n

/-- Python `l[a:b]`. -/
def pySlice {α : Type} (l : List α) (a b : Int) : List α :=
  (l.take (pyBound l.length b)).drop (pyBound l.length a)

/-! ## User-facing texts (`text.py`) and callback-data constants -/

def MAIN_MENU : String := "🏠 *Main Menu*\n\nWhat would you like to do?"
def UPLOAD_SUCCESS : String := "✅ PDF uploaded successfully!"
def UPLOAD_CANCELLED : String := "❌ Upload cancelled."
def TAG_SELECTION_PROMPT : String := "🏷️ Select tags for this PDF. You can select multiple. Click Done when finished."
def TAG_REQUIRED : String := "⚠️ Please select at least one tag."
def SEARCH_REQUIRED_TAG : String := "⚠️ Please select at least one tag to search."
def SEARCH_CANCELLED : String := "❌ Search cancelled."
def NO_RESULTS : String := "😕 No PDFs found matching your filters."
def PDF_NOT_FOUND : String := "❌ PDF not found."
def LIKE_UPDATED : String := "✅ Like updated!"
def ACTION_NOT_ALLOWED : String := "⛔ This action is not allowed right now."
def SESSION_EXPIRED : String := "⌛ Your session has expired. Please start again."
def PLEASE_START : String := "Please start the bot with /start first."
def BOUNDARY_NOT_ALLOWED : String := "This action is not allowed right now."

def CB_upload_tag : String := "upload_tag_"
def CB_upload_done : String := "upload_done"
def CB_upload_cancel : String := "upload_cancel"
def CB_search_tag : String := "search_tag_"
def CB_search_apply : String := "search_apply"
def CB_search_cancel : String := "search_cancel"
def CB_page : String := "page_"
def CB_view : String := "view_"
def CB_like : String := "like_"
def CB_download : String := "download_"
def CB_back_to_menu : String := "back_to_menu"
def CB_noop : String := "noop"

/-- Callback data of the back button of `buttons.pdf_detail_keyboard`
(`"🔙 Back to Results"`). -/
def back_to_results_data : String := "back_to_results"

def ST_register_name : String := "auth.register.name"
def ST_idle : String := "sys.menu.idle"
def ST_upload_file : String := "upload.pdf.file"
def ST_upload_tags : String := "upload.pdf.tags"
def ST_search_select : String := "search.filter.select"
def ST_search_results : String := "search.results.page"
def ST_view : String := "view.pdf.page"

def purpose_upload : String := "upload"
def purpose_search : String := "search"

/-- Recognized boundary domain prefixes of `bot.handle_callback`. -/
def P_upload : String := "upload_"
def P_search : String := "search_"
def P_view : String := "view_"
def P_auth : String := "auth_"
def P_sys : String := "sys_"

def DOM_upload : String := "upload"
def DOM_search : String := "search"
def DOM_view : String := "view"
def DOM_auth : String := "auth"
def DOM_sys : String := "sys"

/-! ## Persistent store data model (`database.py`, schema of `init_db`) -/

/-- A row of the `users` table. -/
structure UserRec where
  username : String
  full_name : String
  region : Option String := none
  school : Option String := none
  student_class : Option String := none
  status : String := ST_register_name
  created_at : Nat := 0
  deriving Repr, DecidableEq

/-- A row of the `pdfs` table. -/
structure PdfRow where
  id : Int
  user_id : Int
  file_id : String
  file_name : String
  likes_count : Int
  downloads_count : Int
  deriving Repr, DecidableEq

/-- The persistent store: the `users`, `pdfs`, `tags`, `likes` and
`downloads` tables.  `likes` and `downloads` have a two-column primary key,
so they are sets of pairs; `pdfs` keeps insertion order (scan order of the
queries); `next_pdf_id` is the AUTOINCREMENT counter. -/
@[ext]
structure DBState where
  users : Int → Option UserRec
  pdfs : List PdfRow
  tags : List (Int × String)
  likes : Finset (Int × Int)
  downloads : Finset (Int × Int)
  next_pdf_id : Int

/-- A search-result row of `get_pdfs_by_multilevel_tags`. -/
structure PdfSummary where
  id : Int
  file_name : String
  likes_count : Int
  tags : List String
  deriving Repr, DecidableEq

/-- The detail record of `get_pdf_details`. -/
structure PdfDetail where
  id : Int
  file_id : String
  file_name : String
  likes_count : Int
  downloads_count : Int
  tags : List String
  user_liked : Bool
  deriving Repr, DecidableEq

/-! ## Persistent store operations (`database.py`) -/

/-- The `allowed` field set of `update_user`. -/
def allowed_user_fields : List String :=
  [("full_name"), ("region"), ("school"), ("student_class")]

/-- One `k = v` assignment of `update_user`'s SET clause. -/
def applyUserField (u : UserRec) (kv : String × String) : UserRec :=
  if kv.1 = ("full_name") then { u with full_name := kv.2 }
  else if kv.1 = ("region") then { u with region := some kv.2 }
  else if kv.1 = ("school") then { u with school := some kv.2 }
  else if kv.1 = ("student_class") then { u with student_class := some kv.2 }
  else u

/-- `database.update_user`: keep only the allowed keyword arguments; if none
remain, do nothing at all; otherwise update exactly those columns of the
row with the given id. -/
def update_user (s : DBState) (user_id : Int) (kwargs : List (String × String)) : DBState :=
  let updates := kwargs.filter (fun kv => decide (kv.1 ∈ allowed_user_fields))
  if updates.isEmpty then s
  else
    { s with users := fun i =>
        if i = user_id then (s.users i).map (fun u => updates.foldl applyUserField u)
        else s.users i }

/-- `database.get_user_status`. -/
def get_user_status (s : DBState) (user_id : Int) : Option String :=
  (s.users user_id).map (fun u => u.status)

/-- `database.set_user_status`: `UPDATE users SET status = ? WHERE id = ?`. -/
def set_user_status (s : DBState) (user_id : Int) (status : String) : DBState :=
  { s with users := fun i =>
      if i = user_id then (s.users i).map (fun u => { u with status := status })
      else s.users i }

/-- `database.add_pdf`: insert a `pdfs` row (counters default to 0) and one
`tags` row per tag; returns the fresh id. -/
def add_pdf (s : DBState) (user_id : Int) (file_id file_name : String)
    (tags : List String) : DBState × Int :=
  let pid := s.next_pdf_id
  ({ s with
      pdfs := s.pdfs ++ [{ id := pid, user_id := user_id, file_id := file_id,
                           file_name := file_name, likes_count := 0, downloads_count := 0 }],
      tags := s.tags ++ tags.map (fun t => (pid, t)),
      next_pdf_id := pid + 1 }, pid)

/-- All tags attached to pdf `pid`, in `tags`-table order (the rows of the
join `pdfs ⋈ tags` for this pdf). -/
def pdfTags (tags : List (Int × String)) (pid : Int) : List String :=
  (tags.filter (fun r => decide (r.1 = pid))).map Prod.snd

/-- The join rows of pdf `pid` surviving `WHERE t.tag IN (tag_filters)`. -/
def matchedTags (tags : List (Int × String)) (tag_filters : List String) (pid : Int) : List String :=
  (pdfTags tags pid).filter (fun t => decide (t ∈ tag_filters))

/-- `database.get_pdfs_by_multilevel_tags`: empty filter list returns `[]`;
otherwise keep the pdfs whose count of *distinct* matched tags equals the
length of the filter list (`HAVING COUNT(DISTINCT t.tag) = ?`), and emit
id, file name, like count and `GROUP_CONCAT` of the matched join rows,
split back into a list. -/
def get_pdfs_by_multilevel_tags (s : DBState) (tag_filters : List String) : List PdfSummary :=
  if tag_filters.isEmpty then []
  else
    (s.pdfs.filter
        (fun p => decide ((matchedTags s.tags tag_filters p.id).dedup.length = tag_filters.length))).map
      (fun p => { id := p.id, file_name := p.file_name, likes_count := p.likes_count,
                  tags := matchedTags s.tags tag_filters p.id })

/-- `database.get_pdf_details`.  `user_liked` is set only when `user_id` is
truthy in Python, i.e. non-zero. -/
def get_pdf_details (s : DBState) (pdf_id user_id : Int) : Option PdfDetail :=
  match s.pdfs.find? (fun p => decide (p.id = pdf_id)) with
  | none => none
  | some p =>
    some { id := p.id, file_id := p.file_id, file_name := p.file_name,
           likes_count := p.likes_count, downloads_count := p.downloads_count,
           tags := pdfTags s.tags pdf_id,
           user_liked := if user_id ≠ 0 then decide ((pdf_id, user_id) ∈ s.likes) else false }

/-- `database.get_pdf_file_id`. -/
def get_pdf_file_id (s : DBState) (pdf_id : Int) : Option String :=
  (s.pdfs.find? (fun p => decide (p.id = pdf_id))).map (fun p => p.file_id)

/-- `database.toggle_like`: if the `(pdf_id, user_id)` like row exists,
delete it and decrement the pdf's `likes_count`, returning `false`;
otherwise insert it and increment the counter, returning `true`.  The
counter `UPDATE` touches only the row with the given id (a no-op when no
such pdf exists, as foreign keys are not enforced). -/
def toggle_like (s : DBState) (pdf_id user_id : Int) : DBState × Bool :=
  if (pdf_id, user_id) ∈ s.likes then
    ({ s with
        likes := s.likes.erase (pdf_id, user_id),
        pdfs := s.pdfs.map (fun p =>
          if p.id = pdf_id then { p with likes_count := p.likes_count - 1 } else p) },
     false)
  else
    ({ s with
        likes := insert (pdf_id, user_id) s.likes,
        pdfs := s.pdfs.map (fun p =>
          if p.id = pdf_id then { p with likes_count := p.likes_count + 1 } else p) },
     true)

/-- `database.increment_download`: `INSERT OR IGNORE` of the
`(pdf_id, user_id)` download row; the connection-local change counter is
positive exactly when the row was newly inserted, and only then is the
pdf's `downloads_count` incremented. -/
def increment_download (s : DBState) (pdf_id user_id : Int) : DBState :=
  if (pdf_id, user_id) ∈ s.downloads then s
  else
    { s with
        downloads := insert (pdf_id, user_id) s.downloads,
        pdfs := s.pdfs.map (fun p =>
          if p.id = pdf_id then { p with downloads_count := p.downloads_count + 1 } else p) }

/-! ## Session store (module-level dicts of `handlers.py`) -/

/-- An upload draft of `pdf_upload_stage`. -/
structure UploadDraft where
  file_id : String
  file_name : String
  tags : List String
  deriving Repr, DecidableEq

/-- The three per-user in-memory maps of `handlers.py`:
`pdf_upload_stage`, `search_selected_tags`, `pdf_search_results`. -/
structure SessionState where
  pdf_upload_stage : Int → Option UploadDraft
  search_selected_tags : Int → Option (List String)
  pdf_search_results : Int → Option (List PdfSummary)

/-- Pointwise update of a keyed map: `m[k] = v`, `del m[k]` and
`m.pop(k, None)` (the latter two as `v = none`). -/
def setMap {α : Type} (m : Int → Option α) (k : Int) (v : Option α) : Int → Option α :=
  fun i => if i = k then v else m i

/-- The full program state the handlers act on. -/
structure BotState where
  db : DBState
  session : SessionState

/-! ## Presentation directives

Each transport call of the handlers becomes a directive; the rendering
helpers `show_main_menu`, `show_tag_selection`, `show_pdf_list` and
`show_pdf_detail` become directives carrying the data they would render. -/

inductive Directive where
  | answerCallback (msg : Option String) (alert : Bool)
  | sendMessage (msg : String)
  | editMessageText (msg : String)
  | editTagMarkup (purpose : String) (selected : List String)
  | editDetailMarkup (pdf_id : Int) (user_liked : Bool)
  | deleteMessage
  | sendDocument (file_id : String)
  | mainMenu
  | tagSelection (purpose : String) (selected : List String)
  | pdfList (page : Int) (items : List PdfSummary)
  | pdfDetail (d : PdfDetail)
  | logWarning (data : String)
  deriving Repr, DecidableEq

/-- `handlers.show_pdf_list`: slice the cached results to the requested
page (Python slicing, page size 5); an empty page is reported with
`NO_RESULTS`, a non-empty one is rendered with the pagination keyboard. -/
def show_pdf_list (pdfs : List PdfSummary) (page : Int) : List Directive :=
  let page_pdfs := pySlice pdfs ((page - 1) * 5) ((page - 1) * 5 + 5)
  if page_pdfs.isEmpty then [Directive.sendMessage NO_RESULTS]
  else [Directive.pdfList page page_pdfs]

/-! ## The engine's callback dispatch (`handlers.callback_handler`)

The branch ladder follows the source exactly: `upload_tag_*`,
`upload_done`, `upload_cancel`, `search_tag_*`, `search_apply`,
`search_cancel`, `page_*`, `view_*`, `like_*`, `download_*`,
`back_to_menu`, and a final logged fall-through.  Every invocation first
answers the callback (the loading-indicator `answer_callback_query`). -/

def callback_handler (s : BotState) (user_id : Int) (data : String) : BotState × List Directive :=
  let current_status := (get_user_status s.db user_id).getD ""
  let ans : List Directive := [Directive.answerCallback none false]
  if pyStartsWith data CB_upload_tag then
    if current_status ≠ ST_upload_tags then
      (s, ans ++ [Directive.sendMessage ACTION_NOT_ALLOWED])
    else
      let tag := pyDropChars data (pyLen CB_upload_tag)
      match s.session.pdf_upload_stage user_id with
      | none =>
        ({ s with db := set_user_status s.db user_id ST_idle },
         ans ++ [Directive.sendMessage SESSION_EXPIRED, Directive.mainMenu])
      | some sess =>
        let newTags := if tag ∈ sess.tags then sess.tags.erase tag else sess.tags ++ [tag]
        ({ s with session := { s.session with
             pdf_upload_stage := setMap s.session.pdf_upload_stage user_id
               (some { sess with tags := newTags }) } },
         ans ++ [Directive.editTagMarkup purpose_upload newTags])
  else if data = CB_upload_done then
    if current_status ≠ ST_upload_tags then
      (s, ans ++ [Directive.sendMessage ACTION_NOT_ALLOWED])
    else
      match s.session.pdf_upload_stage user_id with
      | none =>
        ({ s with db := set_user_status s.db user_id ST_idle },
         ans ++ [Directive.sendMessage SESSION_EXPIRED, Directive.mainMenu])
      | some sess =>
        if sess.tags.isEmpty then
          (s, ans ++ [Directive.answerCallback (some TAG_REQUIRED) true])
        else
          let db1 := (add_pdf s.db user_id sess.file_id sess.file_name sess.tags).1
          ({ db := set_user_status db1 user_id ST_idle,
             session := { s.session with
               pdf_upload_stage := setMap s.session.pdf_upload_stage user_id none } },
           ans ++ [Directive.editMessageText UPLOAD_SUCCESS, Directive.mainMenu])
  else if data = CB_upload_cancel then
    if current_status = ST_upload_tags ∨ current_status = ST_upload_file then
      ({ db := set_user_status s.db user_id ST_idle,
         session := { s.session with
           pdf_upload_stage := setMap s.session.pdf_upload_stage user_id none } },
       ans ++ [Directive.editMessageText UPLOAD_CANCELLED, Directive.mainMenu])
    else (s, ans)
  else if pyStartsWith data CB_search_tag then
    if current_status ≠ ST_search_select then
      (s, ans ++ [Directive.sendMessage ACTION_NOT_ALLOWED])
    else
      let tag := pyDropChars data (pyLen CB_search_tag)
      let filters := (s.session.search_selected_tags user_id).getD []
      let newFilters := if tag ∈ filters then filters.erase tag else filters ++ [tag]
      ({ s with session := { s.session with
           search_selected_tags := setMap s.session.search_selected_tags user_id (some newFilters) } },
       ans ++ [Directive.editTagMarkup purpose_search newFilters])
  else if data = CB_search_apply then
    if current_status ≠ ST_search_select then
      (s, ans ++ [Directive.sendMessage ACTION_NOT_ALLOWED])
    else
      let filters := (s.session.search_selected_tags user_id).getD []
      if filters.isEmpty then
        (s, ans ++ [Directive.answerCallback (some SEARCH_REQUIRED_TAG) true])
      else
        let results := get_pdfs_by_multilevel_tags s.db filters
        let session1 := { s.session with
          pdf_search_results := setMap s.session.pdf_search_results user_id (some results) }
        if results.isEmpty then
          ({ db := set_user_status s.db user_id ST_idle,
             session := { session1 with
               search_selected_tags := setMap session1.search_selected_tags user_id none } },
           ans ++ [Directive.editMessageText NO_RESULTS, Directive.mainMenu])
        else
          ({ db := set_user_status s.db user_id ST_search_results, session := session1 },
           ans ++ show_pdf_list results 1 ++ [Directive.deleteMessage])
  else if data = CB_search_cancel then
    if current_status = ST_search_select then
      ({ db := set_user_status s.db user_id ST_idle,
         session := { s.session with
           search_selected_tags := setMap s.session.search_selected_tags user_id none } },
       ans ++ [Directive.editMessageText SEARCH_CANCELLED, Directive.mainMenu])
    else (s, ans)
  else if pyStartsWith data CB_page then
    if current_status ≠ ST_search_results then
      (s, ans ++ [Directive.sendMessage ACTION_NOT_ALLOWED])
    else
      match pySplitUnderscore data with
      | [_, pstr] =>
        match pyToInt pstr with
        | none => (s, ans)
        | some page =>
          let results := (s.session.pdf_search_results user_id).getD []
          if results.isEmpty then
            ({ s with db := set_user_status s.db user_id ST_idle },
             ans ++ [Directive.mainMenu])
          else (s, ans ++ show_pdf_list results page)
      | _ => (s, ans)
  else if pyStartsWith data CB_view then
    match pyToInt (pyDropChars data (pyLen CB_view)) with
    | none => (s, ans)
    | some pdf_id =>
      match get_pdf_details s.db pdf_id user_id with
      | none => (s, ans ++ [Directive.sendMessage PDF_NOT_FOUND])
      | some pdf =>
        ({ s with db := set_user_status s.db user_id ST_view },
         ans ++ [Directive.pdfDetail pdf])
  else if pyStartsWith data CB_like then
    match pyToInt (pyDropChars data (pyLen CB_like)) with
    | none => (s, ans)
    | some pdf_id =>
      let r := toggle_like s.db pdf_id user_id
      match get_pdf_details r.1 pdf_id user_id with
      | some _ =>
        ({ s with db := r.1 },
         ans ++ [Directive.editDetailMarkup pdf_id r.2,
                 Directive.answerCallback (some LIKE_UPDATED) false])
      | none => ({ s with db := r.1 }, ans)
  else if pyStartsWith data CB_download then
    match pyToInt (pyDropChars data (pyLen CB_download)) with
    | none => (s, ans)
    | some pdf_id =>
      match get_pdf_file_id s.db pdf_id with
      | some file_id =>
        ({ s with db := increment_download s.db pdf_id user_id },
         ans ++ [Directive.sendDocument file_id])
      | none => (s, ans ++ [Directive.sendMessage PDF_NOT_FOUND])
  else if data = CB_back_to_menu then
    ({ db := set_user_status s.db user_id ST_idle,
       session := { pdf_upload_stage := setMap s.session.pdf_upload_stage user_id none,
                    search_selected_tags := setMap s.session.search_selected_tags user_id none,
                    pdf_search_results := setMap s.session.pdf_search_results user_id none } },
     ans ++ [Directive.mainMenu, Directive.deleteMessage])
  else
    (s, ans ++ [Directive.logWarning data])

/-! ## The transport boundary (`bot.handle_callback`) -/

/-- The boundary's coarse domain classification of callback data: the first
matching recognized prefix, else `none`. -/
def allowed_domain (data : String) : Option String :=
  if pyStartsWith data P_upload then some DOM_upload
  else if pyStartsWith data P_search then some DOM_search
  else if pyStartsWith data P_view then some DOM_view
  else if pyStartsWith data P_auth then some DOM_auth
  else if pyStartsWith data P_sys then some DOM_sys
  else none

/-- `bot.handle_callback`: a user without a status (or with an empty one —
both are falsy in Python) is told to `/start`; a callback whose recognized
domain prefix mismatches the current status domain is rejected with an
answer and no state change; everything else is delegated to
`callback_handler`. -/
def handle_callback (s : BotState) (user_id : Int) (data : String) : BotState × List Directive :=
  match get_user_status s.db user_id with
  | none => (s, [Directive.answerCallback (some PLEASE_START) false])
  | some current_status =>
    if current_status = "" then
      (s, [Directive.answerCallback (some PLEASE_START) false])
    else
      match allowed_domain data with
      | some dom =>
        if ¬ pyStartsWith current_status dom then
          (s, [Directive.logWarning data,
               Directive.answerCallback (some BOUNDARY_NOT_ALLOWED) false])
        else callback_handler s user_id data
      | none => callback_handler s user_id data

/-! ## Concrete sample states used by witnesses and counterexamples -/

/-- A store with one registered user (id 7) and one pdf (id 1) tagged
`subject:math`; no likes or downloads yet. -/
def sampleDB : DBState :=
  { users := fun i =>
      if i = 7 then some { username := ("u7"), full_name := ("User Seven") } else none,
    pdfs := [{ id := 1, user_id := 7, file_id := ("f1"), file_name := ("doc1.pdf"),
               likes_count := 0, downloads_count := 0 }],
    tags := [((1 : Int), ("subject:math"))],
    likes := ∅,
    downloads := ∅,
    next_pdf_id := 2 }

/-- A store whose single pdf carries three tags. -/
def sample3DB : DBState :=
  { users := fun _ => none,
    pdfs := [{ id := 1, user_id := 7, file_id := ("f1"), file_name := ("doc1.pdf"),
               likes_count := 0, downloads_count := 0 }],
    tags := [((1 : Int), ("subject:math")), ((1 : Int), ("exam:final")),
             ((1 : Int), ("year:2021"))],
    likes := ∅,
    downloads := ∅,
    next_pdf_id := 2 }

/-- The `downloads_count` column of the pdf row with id `d`, if any. -/
def downloads_count_of (s : DBState) (d : Int) : Option Int :=
  (s.pdfs.find? (fun p => decide (p.id = d))).map (fun p => p.downloads_count)


/-- Counter/relation consistency: every pdf row's denormalized
`likes_count` equals the number of like rows carrying its id. -/
abbrev WF (s : DBState) : Prop :=
  ∀ p ∈ s.pdfs, p.likes_count = ((s.likes.filter (fun r => r.1 = p.id)).card : ℤ)

/-- A sequence of `toggle_like` calls, in order. -/
def runToggles (s : DBState) (ops : List (Int × Int)) : DBState :=
  ops.foldl (fun st op => (toggle_like st op.1 op.2).1) s


/-- The summary row returned by the C9 counterexample query. -/
def mathFinalSummary : PdfSummary :=
  { id := 1, file_name := ("doc1.pdf"), likes_count := 0,
    tags := [("subject:math"), ("exam:final")] }


/-! ## Concrete engine states for the handler claims -/

/-- The empty session store. -/
def emptySession : SessionState :=
  { pdf_upload_stage := fun _ => none,
    search_selected_tags := fun _ => none,
    pdf_search_results := fun _ => none }

/-- A registered user record pinned at a given status. -/
def userAt (st : String) : UserRec :=
  { username := ("u"), full_name := ("User"), status := st }

/-- A one-entry user table: user `uid` registered at status `st`. -/
def usersWith (uid : Int) (st : String) : Int → Option UserRec :=
  fun i => if i = uid then some (userAt st) else none

/-- A one-entry session map. -/
def mapWith {α : Type} (uid : Int) (v : α) : Int → Option α :=
  fun i => if i = uid then some v else none

/-- User 7 in `search.filter.select` with the search draft `[subject:math]`
over the sample store. -/
def c4S : BotState :=
  { db := { sampleDB with users := usersWith 7 ST_search_select },
    session := { emptySession with
      search_selected_tags := mapWith 7 [("subject:math")] } }

/-- User 7 in `search.filter.select` with *no* search draft (a lost
session). -/
def c5S : BotState := { db := c4S.db, session := emptySession }

/-- User 7 in `upload.pdf.tags` with no upload draft (a lost session). -/
def c5US : BotState :=
  { db := { sampleDB with users := usersWith 7 ST_upload_tags },
    session := emptySession }

/-- User 9 idle at the main menu over the sample store. -/
def c6S : BotState :=
  { db := { sampleDB with users := usersWith 9 ST_idle },
    session := emptySession }

/-- User 3 on the search results page over the sample store. -/
def c7S : BotState :=
  { db := { sampleDB with users := usersWith 3 ST_search_results },
    session := emptySession }


/-! ## C3: idempotent download counting -/

lemma find?_map_id_preserving (f : PdfRow → PdfRow) (hid : ∀ p, (f p).id = p.id)
    (d : Int) (l : List PdfRow) :
    (l.map f).find? (fun p => decide (p.id = d)) =
      (l.find? (fun p => decide (p.id = d))).map f := by
  induction l with
  | nil => rfl
  | cons a t ih =>
    by_cases h : a.id = d
    · rw [List.map_cons, List.find?_cons_of_pos _ (by simp [hid, h]),
        List.find?_cons_of_pos _ (by simp [h])]
      rfl
    · rw [List.map_cons, List.find?_cons_of_neg _ (by simp [hid, h]),
        List.find?_cons_of_neg _ (by simp [h]), ih]

/-- C3: `increment_download` is idempotent per `(pdf, user)` pair — the
second call is a no-op, a download record for the pair exists after either
call, a call for an already-recorded pair leaves the store untouched, and a
call for a new pair increments the pdf's `downloads_count` by exactly 1. -/
theorem C3_increment_download_idempotent (s : DBState) (d u : Int) :
    increment_download (increment_download s d u) d u = increment_download s d u ∧
    (d, u) ∈ (increment_download s d u).downloads ∧
    ((d, u) ∈ s.downloads → increment_download s d u = s) ∧
    ((d, u) ∉ s.downloads →
      downloads_count_of (increment_download s d u) d =
        (downloads_count_of s d).map (fun c => c + 1)) := by
  by_cases h : (d, u) ∈ s.downloads
  · refine ⟨?_, ?_, fun _ => ?_, fun hc => absurd h hc⟩ <;>
      simp [increment_download, h]
  · have h1 : increment_download s d u =
        { s with
            downloads := insert (d, u) s.downloads,
            pdfs := s.pdfs.map (fun p =>
              if p.id = d then { p with downloads_count := p.downloads_count + 1 } else p) } := by
      simp [increment_download, h]
    refine ⟨?_, ?_, fun hc => absurd hc h, fun _ => ?_⟩
    · rw [h1]
      simp [increment_download, Finset.mem_insert_self]
    · rw [h1]
      exact Finset.mem_insert_self _ _
    · rw [h1]
      unfold downloads_count_of
      rw [show ({ s with
            downloads := insert (d, u) s.downloads,
            pdfs := s.pdfs.map (fun p =>
              if p.id = d then { p with downloads_count := p.downloads_count + 1 } else p) } : DBState).pdfs
          = s.pdfs.map (fun p =>
              if p.id = d then { p with downloads_count := p.downloads_count + 1 } else p) from rfl,
        find?_map_id_preserving _ (fun p => by by_cases hp : p.id = d <;> simp [hp]) d]
      cases hf : s.pdfs.find? (fun p => decide (p.id = d)) with
      | none => rfl
      | some p =>
        have hpd : p.id = d := by
          have := List.find?_some hf
          simpa using this
        simp [hpd]

/-- C3 witness: from the empty download relation, downloading pdf 1 twice
as user 7 leaves the counter at exactly 1. -/
theorem C3_witness :
    downloads_count_of (increment_download sampleDB 1 7) 1 =
      (downloads_count_of sampleDB 1).map (fun c => c + 1) :=
  (C3_increment_download_idempotent sampleDB 1 7).2.2.2 (by decide)

/-! ## C10: `update_user` frame conditions -/

lemma foldl_applyUserField_preserves (l : List (String × String)) (u : UserRec) :
    (l.foldl applyUserField u).username = u.username ∧
    (l.foldl applyUserField u).status = u.status ∧
    (l.foldl applyUserField u).created_at = u.created_at := by
  induction l generalizing u with
  | nil => exact ⟨rfl, rfl, rfl⟩
  | cons kv t ih =>
    have hstep : (applyUserField u kv).username = u.username ∧
        (applyUserField u kv).status = u.status ∧
        (applyUserField u kv).created_at = u.created_at := by
      unfold applyUserField
      split_ifs <;> exact ⟨rfl, rfl, rfl⟩
    have h := ih (applyUserField u kv)
    rw [List.foldl_cons]
    exact ⟨h.1.trans hstep.1, h.2.1.trans hstep.2.1, h.2.2.trans hstep.2.2⟩

/-- C10: `update_user` touches nothing but the four allowed profile columns
of the addressed user's row: every other table is untouched, every other
user's row is untouched, the row's `username`, `status` and `created_at`
survive unchanged, and a call whose keyword arguments contain none of the
allowed fields performs no write at all. -/
theorem C10_update_user_frame (s : DBState) (uid : Int) (kwargs : List (String × String)) :
    (update_user s uid kwargs).pdfs = s.pdfs ∧
    (update_user s uid kwargs).tags = s.tags ∧
    (update_user s uid kwargs).likes = s.likes ∧
    (update_user s uid kwargs).downloads = s.downloads ∧
    (∀ j, j ≠ uid → (update_user s uid kwargs).users j = s.users j) ∧
    (∀ u, s.users uid = some u →
      ∃ v, (update_user s uid kwargs).users uid = some v ∧
        v.username = u.username ∧ v.status = u.status ∧ v.created_at = u.created_at) ∧
    (kwargs.filter (fun kv => decide (kv.1 ∈ allowed_user_fields)) = [] →
      update_user s uid kwargs = s) := by
  by_cases h : (kwargs.filter (fun kv => decide (kv.1 ∈ allowed_user_fields))).isEmpty
  · have hs : update_user s uid kwargs = s := by
      unfold update_user
      rw [if_pos h]
    exact ⟨by rw [hs], by rw [hs], by rw [hs], by rw [hs],
      fun j _ => by rw [hs],
      fun u hu => ⟨u, by rw [hs, hu], rfl, rfl, rfl⟩,
      fun _ => hs⟩
  · have hs : update_user s uid kwargs =
        { s with users := fun i =>
            if i = uid then
              (s.users i).map (fun u =>
                (kwargs.filter (fun kv => decide (kv.1 ∈ allowed_user_fields))).foldl applyUserField u)
            else s.users i } := by
      unfold update_user
      rw [if_neg h]
    refine ⟨by rw [hs], by rw [hs], by rw [hs], by rw [hs], fun j hj => ?_, fun u hu => ?_, fun hc => ?_⟩
    · rw [hs]
      simp [hj]
    · rw [hs]
      have hp := foldl_applyUserField_preserves
        (kwargs.filter (fun kv => decide (kv.1 ∈ allowed_user_fields))) u
      exact ⟨_, by simp [hu], hp.1, hp.2.1, hp.2.2⟩
    · exact absurd (by rw [hc]; rfl) h

/-- C10 witness: an update carrying one allowed field (`region`) and one
disallowed field (`status`) leaves user 9's row untouched and preserves
user 7's `status`. -/
theorem C10_witness :
    (update_user sampleDB 7 [(("region"), ("Hargeisa")), (("status"), ("hacked"))]).users 9 =
      sampleDB.users 9 :=
  (C10_update_user_frame sampleDB 7 [(("region"), ("Hargeisa")), (("status"), ("hacked"))]).2.2.2.2.1
    9 (by decide)

/-! ## C2: like toggling laws -/

lemma toggle_like_mem (s : DBState) (d u : Int) (h : (d, u) ∈ s.likes) :
    toggle_like s d u =
      ({ s with
          likes := s.likes.erase (d, u),
          pdfs := s.pdfs.map (fun p =>
            if p.id = d then { p with likes_count := p.likes_count - 1 } else p) },
       false) := by
  unfold toggle_like
  rw [if_pos h]

lemma toggle_like_not_mem (s : DBState) (d u : Int) (h : (d, u) ∉ s.likes) :
    toggle_like s d u =
      ({ s with
          likes := insert (d, u) s.likes,
          pdfs := s.pdfs.map (fun p =>
            if p.id = d then { p with likes_count := p.likes_count + 1 } else p) },
       true) := by
  unfold toggle_like
  rw [if_neg h]

lemma filter_pair_erase (L : Finset (Int × Int)) (x : Int × Int) (e : Int) :
    (L.erase x).filter (fun r => r.1 = e) =
      if x.1 = e then (L.filter (fun r => r.1 = e)).erase x
      else L.filter (fun r => r.1 = e) := by
  split_ifs with hx
  · ext r
    simp only [Finset.mem_filter, Finset.mem_erase]
    tauto
  · ext r
    simp only [Finset.mem_filter, Finset.mem_erase]
    constructor
    · rintro ⟨⟨_, hrL⟩, hre⟩
      exact ⟨hrL, hre⟩
    · rintro ⟨hrL, hre⟩
      exact ⟨⟨fun he => hx (by rw [← he]; exact hre), hrL⟩, hre⟩

lemma toggle_like_wf (s : DBState) (d u : Int) (h : WF s) : WF (toggle_like s d u).1 := by
  by_cases hmem : (d, u) ∈ s.likes
  · rw [toggle_like_mem s d u hmem]
    intro q hq
    obtain ⟨p, hp, rfl⟩ := List.mem_map.1 hq
    by_cases hpd : p.id = d
    · rw [if_pos hpd]
      show p.likes_count - 1 =
        (((s.likes.erase (d, u)).filter (fun r => r.1 = p.id)).card : ℤ)
      rw [filter_pair_erase, if_pos (show (d, u).1 = p.id from hpd.symm)]
      have hx : (d, u) ∈ s.likes.filter (fun r => r.1 = p.id) :=
        Finset.mem_filter.2 ⟨hmem, hpd.symm⟩
      rw [Finset.card_erase_of_mem hx, h p hp,
        Nat.cast_sub (Nat.one_le_iff_ne_zero.2 (Finset.card_ne_zero_of_mem hx)), Nat.cast_one]
    · rw [if_neg hpd]
      show p.likes_count =
        (((s.likes.erase (d, u)).filter (fun r => r.1 = p.id)).card : ℤ)
      rw [filter_pair_erase, if_neg (fun he : (d, u).1 = p.id => hpd he.symm)]
      exact h p hp
  · rw [toggle_like_not_mem s d u hmem]
    intro q hq
    obtain ⟨p, hp, rfl⟩ := List.mem_map.1 hq
    by_cases hpd : p.id = d
    · rw [if_pos hpd]
      show p.likes_count + 1 =
        (((insert (d, u) s.likes).filter (fun r => r.1 = p.id)).card : ℤ)
      rw [Finset.filter_insert, if_pos (show (d, u).1 = p.id from hpd.symm),
        Finset.card_insert_of_not_mem (fun hin => hmem (Finset.mem_filter.1 hin).1),
        h p hp]
      push_cast
      ring
    · rw [if_neg hpd]
      show p.likes_count =
        (((insert (d, u) s.likes).filter (fun r => r.1 = p.id)).card : ℤ)
      rw [Finset.filter_insert, if_neg (fun he : (d, u).1 = p.id => hpd he.symm)]
      exact h p hp

lemma runToggles_wf (ops : List (Int × Int)) :
    ∀ s : DBState, WF s → WF (runToggles s ops) := by
  induction ops with
  | nil => exact fun s h => h
  | cons op t ih =>
    intro s h
    exact ih _ (toggle_like_wf s op.1 op.2 h)

lemma inc_dec_id (d : Int) (p : PdfRow) :
    ((fun q => if q.id = d then { q with likes_count := q.likes_count + 1 } else q) ∘
      (fun q => if q.id = d then { q with likes_count := q.likes_count - 1 } else q)) p = p := by
  by_cases hp : p.id = d
  · have h1 : p.likes_count - 1 + 1 = p.likes_count := by ring
    simp [Function.comp, hp, h1]
    rw [← hp]
  · simp [Function.comp, hp]

lemma dec_inc_id (d : Int) (p : PdfRow) :
    ((fun q => if q.id = d then { q with likes_count := q.likes_count - 1 } else q) ∘
      (fun q => if q.id = d then { q with likes_count := q.likes_count + 1 } else q)) p = p := by
  by_cases hp : p.id = d
  · have h1 : p.likes_count + 1 - 1 = p.likes_count := by ring
    simp [Function.comp, hp, h1]
    rw [← hp]
  · simp [Function.comp, hp]

lemma toggle_toggle_eq (s : DBState) (d u : Int) :
    (toggle_like (toggle_like s d u).1 d u).1 = s := by
  by_cases hmem : (d, u) ∈ s.likes
  · rw [toggle_like_mem s d u hmem,
      toggle_like_not_mem _ d u (by simp [Finset.not_mem_erase])]
    ext : 1
    · rfl
    · show (s.pdfs.map _).map _ = s.pdfs
      rw [List.map_map]
      calc (s.pdfs.map _) = s.pdfs.map id := List.map_congr_left (fun p _ => inc_dec_id d p)
        _ = s.pdfs := List.map_id s.pdfs
    · rfl
    · show insert (d, u) (s.likes.erase (d, u)) = s.likes
      exact Finset.insert_erase hmem
    · rfl
    · rfl
  · rw [toggle_like_not_mem s d u hmem,
      toggle_like_mem _ d u (by simp [Finset.mem_insert_self])]
    ext : 1
    · rfl
    · show (s.pdfs.map _).map _ = s.pdfs
      rw [List.map_map]
      calc (s.pdfs.map _) = s.pdfs.map id := List.map_congr_left (fun p _ => dec_inc_id d p)
        _ = s.pdfs := List.map_id s.pdfs
    · rfl
    · show (insert (d, u) s.likes).erase (d, u) = s.likes
      exact Finset.erase_insert hmem
    · rfl
    · rfl

lemma toggle_toggle_flag (s : DBState) (d u : Int) :
    ((toggle_like (toggle_like s d u).1 d u).2 = true ↔ (d, u) ∈ s.likes) := by
  by_cases hmem : (d, u) ∈ s.likes
  · rw [toggle_like_mem s d u hmem,
      toggle_like_not_mem _ d u (by simp [Finset.not_mem_erase])]
    simpa using hmem
  · rw [toggle_like_not_mem s d u hmem,
      toggle_like_mem _ d u (by simp [Finset.mem_insert_self])]
    simpa using hmem

/-- C2: toggling a like twice restores the entire store — like rows, the
pdf's `likes_count`, everything — the second call reports the original
liked state, and from any counter-consistent store every sequence of
`toggle_like` calls keeps each pdf's `likes_count` equal to the number of
its like rows. -/
theorem C2_toggle_like_laws (s : DBState) (d u : Int) (hwf : WF s)
    (ops : List (Int × Int)) :
    (toggle_like (toggle_like s d u).1 d u).1 = s ∧
    ((toggle_like (toggle_like s d u).1 d u).2 = true ↔ (d, u) ∈ s.likes) ∧
    WF (runToggles s ops) :=
  ⟨toggle_toggle_eq s d u, toggle_toggle_flag s d u, runToggles_wf ops s hwf⟩

/-- C2 witness: in the one-pdf sample store, the double toggle of
`(pdf 1, user 7)` restores the store, and a four-step toggle sequence
keeps the counter consistent. -/
theorem C2_witness :
    (toggle_like (toggle_like sampleDB 1 7).1 1 7).1 = sampleDB ∧
    WF (runToggles sampleDB [((1 : Int), (7 : Int)), ((1 : Int), (9 : Int)),
      ((1 : Int), (7 : Int)), ((2 : Int), (7 : Int))]) := by
  have h := C2_toggle_like_laws sampleDB 1 7 (by decide)
    [((1 : Int), (7 : Int)), ((1 : Int), (9 : Int)), ((1 : Int), (7 : Int)), ((2 : Int), (7 : Int))]
  exact ⟨h.1, h.2.2⟩

/-! ## C1 / C9: the tag-intersection query -/

lemma dedup_length_filter_eq_iff (doctags filters : List String) (hnd : filters.Nodup) :
    ((doctags.filter (fun t => decide (t ∈ filters))).dedup.length = filters.length) ↔
      ∀ t ∈ filters, t ∈ doctags := by
  have hM : (doctags.filter (fun t => decide (t ∈ filters))).toFinset =
      doctags.toFinset ∩ filters.toFinset := by
    ext t
    simp [List.mem_toFinset, List.mem_filter, Finset.mem_inter]
  rw [← List.card_toFinset, hM]
  rw [show filters.length = filters.toFinset.card from (List.toFinset_card_of_nodup hnd).symm]
  constructor
  · intro h t ht
    have heq : doctags.toFinset ∩ filters.toFinset = filters.toFinset :=
      Finset.eq_of_subset_of_card_le Finset.inter_subset_right (le_of_eq h.symm)
    have hsub : filters.toFinset ⊆ doctags.toFinset := Finset.inter_eq_right.mp heq
    exact List.mem_toFinset.mp (hsub (List.mem_toFinset.mpr ht))
  · intro h
    rw [Finset.inter_eq_right.mpr
      (fun t ht => List.mem_toFinset.mpr (h t (List.mem_toFinset.mp ht)))]

/-- C1 (amended): the query returns the empty sequence on an empty filter
list, and for every non-empty *duplicate-free* filter list its results are
exactly the summaries of the pdfs whose tag set contains every filter tag
— a pdf carrying extra tags still matches, a pdf missing any filter tag is
excluded. -/
theorem C1_intersection_query (s : DBState) (tag_filters : List String)
    (hnd : tag_filters.Nodup) :
    get_pdfs_by_multilevel_tags s [] = [] ∧
    (tag_filters ≠ [] → ∀ r,
      r ∈ get_pdfs_by_multilevel_tags s tag_filters ↔
        ∃ p ∈ s.pdfs,
          (∀ t ∈ tag_filters, t ∈ pdfTags s.tags p.id) ∧
          r = { id := p.id, file_name := p.file_name, likes_count := p.likes_count,
                tags := matchedTags s.tags tag_filters p.id }) := by
  refine ⟨rfl, fun hne r => ?_⟩
  unfold get_pdfs_by_multilevel_tags
  rw [if_neg (by simpa using hne)]
  rw [List.mem_map]
  constructor
  · rintro ⟨p, hpmem, rfl⟩
    obtain ⟨hp, hcond⟩ := List.mem_filter.1 hpmem
    refine ⟨p, hp, ?_, rfl⟩
    have := of_decide_eq_true hcond
    exact (dedup_length_filter_eq_iff (pdfTags s.tags p.id) tag_filters hnd).mp
      (by simpa [matchedTags] using this)
  · rintro ⟨p, hp, hsup, rfl⟩
    refine ⟨p, List.mem_filter.2 ⟨hp, decide_eq_true ?_⟩, rfl⟩
    show (matchedTags s.tags tag_filters p.id).dedup.length = tag_filters.length
    simpa [matchedTags] using
      (dedup_length_filter_eq_iff (pdfTags s.tags p.id) tag_filters hnd).mpr hsup

/-- C1 counterexample: over the sample store, whose only pdf carries the
tag `subject:math`, the filter *list* `[subject:math, subject:math]` has
filter *set* `{subject:math}`, a subset of the pdf's tag set — so the claim,
which quantifies over every non-empty list of tag filters, demands that the
pdf be returned — yet `HAVING COUNT(DISTINCT t.tag) = 2` matches nothing
and the query returns the empty list (the singleton filter does return the
pdf). -/
theorem C1_counterexample :
    (("subject:math") ∈ pdfTags sampleDB.tags 1) ∧
    get_pdfs_by_multilevel_tags sampleDB [("subject:math"), ("subject:math")] = [] ∧
    get_pdfs_by_multilevel_tags sampleDB [("subject:math")] =
      [{ id := 1, file_name := ("doc1.pdf"), likes_count := 0,
         tags := [("subject:math")] }] := by decide

/-- C1 witness: the amended characterization applied to the sample store
and the singleton filter `[subject:math]`, at the summary it returns. -/
theorem C1_witness :
    ({ id := 1, file_name := ("doc1.pdf"), likes_count := 0,
       tags := [("subject:math")] } : PdfSummary) ∈
        get_pdfs_by_multilevel_tags sampleDB [("subject:math")] ↔
      ∃ p ∈ sampleDB.pdfs,
        (∀ t ∈ [("subject:math")], t ∈ pdfTags sampleDB.tags p.id) ∧
        ({ id := 1, file_name := ("doc1.pdf"), likes_count := 0,
           tags := [("subject:math")] } : PdfSummary) =
          { id := p.id, file_name := p.file_name, likes_count := p.likes_count,
            tags := matchedTags sampleDB.tags [("subject:math")] p.id } :=
  (C1_intersection_query sampleDB [("subject:math")] (by decide)).2 (by decide) _

/-- C9 (amended): each result row of the query carries the pdf's id, file
name and like count, but its `tags` field holds only the *matched* join
rows — the pdf's tags that occur in the filter (for a matching pdf this is
exactly the filter set), not the pdf's full tag set. -/
theorem C9_summary_fields (s : DBState) (tag_filters : List String)
    (hnd : tag_filters.Nodup) :
    ∀ r ∈ get_pdfs_by_multilevel_tags s tag_filters,
      ∃ p ∈ s.pdfs,
        r.id = p.id ∧ r.file_name = p.file_name ∧ r.likes_count = p.likes_count ∧
        r.tags = matchedTags s.tags tag_filters p.id ∧
        (∀ t, t ∈ r.tags ↔ t ∈ pdfTags s.tags p.id ∧ t ∈ tag_filters) ∧
        (∀ t ∈ tag_filters, t ∈ r.tags) := by
  intro r hr
  rcases heq : tag_filters with _ | ⟨t0, rest⟩
  · rw [heq] at hr
    exact absurd hr (by simp [get_pdfs_by_multilevel_tags])
  · rw [← heq]
    have hne : tag_filters ≠ [] := by rw [heq]; exact List.cons_ne_nil _ _
    obtain ⟨p, hp, hsup, rfl⟩ :=
      ((C1_intersection_query s tag_filters hnd).2 hne r).mp hr
    refine ⟨p, hp, rfl, rfl, rfl, rfl, fun t => ?_, fun t ht => ?_⟩
    · show t ∈ (pdfTags s.tags p.id).filter (fun t => decide (t ∈ tag_filters)) ↔ _
      simp [List.mem_filter]
    · show t ∈ (pdfTags s.tags p.id).filter (fun t => decide (t ∈ tag_filters))
      exact List.mem_filter.2 ⟨hsup t ht, decide_eq_true ht⟩

/-- C9 counterexample: the pdf of `sample3DB` carries the full tag set
`[subject:math, exam:final, year:2021]`, but the summary returned for the
filter `[subject:math, exam:final]` carries only the two matched tags —
not the pdf's full tag set as the claim states. -/
theorem C9_counterexample :
    pdfTags sample3DB.tags 1 = [("subject:math"), ("exam:final"), ("year:2021")] ∧
    get_pdfs_by_multilevel_tags sample3DB [("subject:math"), ("exam:final")] =
      [{ id := 1, file_name := ("doc1.pdf"), likes_count := 0,
         tags := [("subject:math"), ("exam:final")] }] := by decide

/-- C9 witness: the amended field description applied to `sample3DB` and
the two-tag filter, at the single summary it returns. -/
theorem C9_witness :
    ∃ p ∈ sample3DB.pdfs,
      mathFinalSummary.id = p.id ∧
      mathFinalSummary.file_name = p.file_name ∧
      mathFinalSummary.likes_count = p.likes_count ∧
      mathFinalSummary.tags = matchedTags sample3DB.tags [("subject:math"), ("exam:final")] p.id ∧
      (∀ t, t ∈ mathFinalSummary.tags ↔
          t ∈ pdfTags sample3DB.tags p.id ∧ t ∈ [("subject:math"), ("exam:final")]) ∧
      (∀ t ∈ [("subject:math"), ("exam:final")], t ∈ mathFinalSummary.tags) :=
  C9_summary_fields sample3DB [("subject:math"), ("exam:final")] (by decide)
    mathFinalSummary (by decide)

/-! ## String-prefix facts used by the handler proofs -/

lemma pyStartsWith_append (p t : String) : pyStartsWith (p ++ t) p = true := by
  unfold pyStartsWith
  rw [String.data_append, List.isPrefixOf_iff_prefix]
  exact List.prefix_append _ _

lemma pyDropChars_append (p t : String) : pyDropChars (p ++ t) (pyLen p) = t := by
  unfold pyDropChars pyLen
  rw [String.data_append, List.drop_left]

lemma head?_of_pyStartsWith (s p : String) (h : pyStartsWith s p = true) :
    ∀ c, p.data.head? = some c → s.data.head? = some c := by
  unfold pyStartsWith at h
  intro c hc
  cases hp : p.data with
  | nil => rw [hp] at hc; cases hc
  | cons a t =>
    rw [hp] at hc h
    cases hs : s.data with
    | nil => rw [hs] at h; simp [List.isPrefixOf] at h
    | cons b tb =>
      rw [hs] at h
      simp only [List.isPrefixOf, Bool.and_eq_true, beq_iff_eq] at h
      simp only [List.head?_cons, Option.some.injEq] at hc ⊢
      rw [← h.1]
      exact hc

lemma not_startsWith_of_head_ne (s p : String) (a b : Char)
    (hs : s.data.head? = some a) (hp : p.data.head? = some b) (hne : b ≠ a) :
    pyStartsWith s p = false := by
  cases hc : pyStartsWith s p with
  | false => rfl
  | true =>
    have hb := head?_of_pyStartsWith s p hc b hp
    rw [hb] at hs
    exact absurd (Option.some.inj hs) hne

lemma ne_of_head_ne (s t : String) (a b : Char)
    (hs : s.data.head? = some a) (ht : t.data.head? = some b) (hne : a ≠ b) :
    s ≠ t := by
  intro he
  rw [he, ht] at hs
  exact hne (Option.some.inj hs).symm

/-! ## C8: the back button of the detail view -/

/-- C8: the detail view's back button emits `back_to_results`
(`buttons.pdf_detail_keyboard`), but `callback_handler` has no branch for
it: from *every* state — result cache present or not, whatever the user's
status — the event falls through to the logged no-op, so the user is
neither returned to `search.results.page` nor to `sys.menu.idle`.
`buttons.py`'s own trailing comment says this callback "needs to be
handled in handlers.py"; it is not. -/
theorem C8_back_to_results_ignored (s : BotState) (u : Int) :
    callback_handler s u back_to_results_data =
      (s, [Directive.answerCallback none false,
           Directive.logWarning back_to_results_data]) := by
  simp +decide [callback_handler]

/-! ## C7: boundary forwarding and domain rejection -/

/-- C7 (amended): the boundary forwards into the engine every callback
whose data carries *no* recognized domain prefix (`upload_`, `search_`,
`view_`, `auth_`, `sys_`) — in particular `page_*`, `like_*`,
`download_*`, `back_to_menu` and `noop` — regardless of the status domain;
but `view_*` *does* carry the recognized prefix `view_`, so it is rejected
at the boundary with the "action not allowed" answer and no state change
whenever the current status does not start with `view`. -/
theorem C7_boundary_validation (s : BotState) (u : Int) (st data : String) :
    (get_user_status s.db u = some st → st ≠ "" →
      pyStartsWith data P_upload = false → pyStartsWith data P_search = false →
      pyStartsWith data P_view = false → pyStartsWith data P_auth = false →
      pyStartsWith data P_sys = false →
      handle_callback s u data = callback_handler s u data) ∧
    (get_user_status s.db u = some st → st ≠ "" →
      pyStartsWith data P_view = true → pyStartsWith st DOM_view = false →
      handle_callback s u data =
        (s, [Directive.logWarning data,
             Directive.answerCallback (some BOUNDARY_NOT_ALLOWED) false])) := by
  constructor
  · intro h1 h2 h3 h4 h5 h6 h7
    simp only [handle_callback, h1]
    rw [if_neg h2]
    simp only [allowed_domain, h3, h4, h5, h6, h7, Bool.false_eq_true, if_false]
  · intro h1 h2 h3 h4
    have hv : data.data.head? = some 'v' :=
      head?_of_pyStartsWith data P_view h3 'v' (by decide)
    have hu : pyStartsWith data P_upload = false :=
      not_startsWith_of_head_ne data P_upload 'v' 'u' hv (by decide) (by decide)
    have hs2 : pyStartsWith data P_search = false :=
      not_startsWith_of_head_ne data P_search 'v' 's' hv (by decide) (by decide)
    simp only [handle_callback, h1]
    rw [if_neg h2]
    simp only [allowed_domain, hu, hs2, h3, Bool.false_eq_true, if_false, if_true]
    rw [if_pos (by simp [h4])]

/-- C7 counterexample: user 3 sits on the search results page; the claim
lists `view_*` among the callbacks forwarded into the engine regardless of
domain, and the engine would indeed open the detail view (last conjunct) —
but the boundary classifies `view_1` into domain `view`, which mismatches
`search.results.page`, so it rejects the event with "action not allowed"
and no state change instead of forwarding it. -/
theorem C7_counterexample :
    get_user_status c7S.db 3 = some ST_search_results ∧
    (handle_callback c7S 3 ("view_1")).1 = c7S ∧
    (handle_callback c7S 3 ("view_1")).2 =
      [Directive.logWarning ("view_1"),
       Directive.answerCallback (some BOUNDARY_NOT_ALLOWED) false] ∧
    get_user_status (callback_handler c7S 3 ("view_1")).1.db 3 = some ST_view :=
  ⟨by decide, rfl, by decide, by decide⟩

/-- C7 witness: the unprefixed callback `like_1` is forwarded verbatim to
the engine from the search-results status. -/
theorem C7_witness :
    handle_callback c7S 3 ("like_1") = callback_handler c7S 3 ("like_1") :=
  (C7_boundary_validation c7S 3 ST_search_results ("like_1")).1 (by decide) (by decide)
    (by decide) (by decide) (by decide) (by decide) (by decide)

/-! ## C6: per-handler status re-validation -/

/-- C6 (amended): of the unprefixed/ambiguous callbacks, only `page_*`
re-validates the status inside the engine, and its rejection is not silent
— it answers with an "action not allowed" message and changes nothing.
`like_*`, `download_*`, `view_*` and `back_to_menu` perform no status
re-validation at all: from *any* status, `like_*` toggles the like in the
store, `download_*` records the download, `view_*` switches the status to
`view.pdf.page`, and `back_to_menu` clears the session and resets the
status.  `noop` (and any unknown data) is silently ignored with only a
log. -/
theorem C6_unprefixed_status_checks (s : BotState) (u : Int) (st : String) :
    (get_user_status s.db u = some st → st ≠ ST_search_results →
      callback_handler s u ("page_2") =
        (s, [Directive.answerCallback none false,
             Directive.sendMessage ACTION_NOT_ALLOWED])) ∧
    ((callback_handler s u ("like_1")).1.db = (toggle_like s.db 1 u).1 ∧
     (callback_handler s u ("like_1")).1.session = s.session) ∧
    (∀ fid, get_pdf_file_id s.db 1 = some fid →
      (callback_handler s u ("download_1")).1.db = increment_download s.db 1 u) ∧
    (∀ pd, get_pdf_details s.db 1 u = some pd →
      (callback_handler s u ("view_1")).1.db = set_user_status s.db u ST_view) ∧
    ((callback_handler s u CB_back_to_menu).1.db = set_user_status s.db u ST_idle ∧
     (callback_handler s u CB_back_to_menu).1.session.pdf_upload_stage u = none ∧
     (callback_handler s u CB_back_to_menu).1.session.search_selected_tags u = none ∧
     (callback_handler s u CB_back_to_menu).1.session.pdf_search_results u = none) ∧
    (callback_handler s u CB_noop =
      (s, [Directive.answerCallback none false, Directive.logWarning CB_noop])) := by
  refine ⟨fun h1 h2 => ?_, ⟨?_, ?_⟩, fun fid hfid => ?_, fun pd hpd => ?_, ⟨?_, ?_, ?_, ?_⟩, ?_⟩
  · simp +decide [callback_handler, h1, h2]
  · have hp : pyToInt (pyDropChars ("like_1") (pyLen CB_like)) = some 1 := by decide
    simp +decide [callback_handler, hp]
    cases hd : get_pdf_details (toggle_like s.db 1 u).1 1 u with
    | none => simp [hd]
    | some pd => simp [hd]
  · have hp : pyToInt (pyDropChars ("like_1") (pyLen CB_like)) = some 1 := by decide
    simp +decide [callback_handler, hp]
    cases hd : get_pdf_details (toggle_like s.db 1 u).1 1 u with
    | none => simp [hd]
    | some pd => simp [hd]
  · have hp : pyToInt (pyDropChars ("download_1") (pyLen CB_download)) = some 1 := by decide
    simp +decide [callback_handler, hp, hfid]
  · have hp : pyToInt (pyDropChars ("view_1") (pyLen CB_view)) = some 1 := by decide
    simp +decide [callback_handler, hp, hpd]
  · simp +decide [callback_handler]
  · simp +decide [callback_handler, setMap]
  · simp +decide [callback_handler, setMap]
  · simp +decide [callback_handler, setMap]
  · simp +decide [callback_handler]

/-- C6 counterexample: user 9 is idle at the main menu — a status from
which a `like_*` callback is not legal per the claim — yet the engine
performs the store mutation anyway: the like row `(1, 9)` appears. -/
theorem C6_counterexample :
    get_user_status c6S.db 9 = some ST_idle ∧
    ((1 : Int), (9 : Int)) ∉ c6S.db.likes ∧
    ((1 : Int), (9 : Int)) ∈ (callback_handler c6S 9 ("like_1")).1.db.likes := by decide

/-- C6 witness: the `page_*` re-validation at the idle status rejects the
event with an explicit message and no state change. -/
theorem C6_witness :
    callback_handler c6S 9 ("page_2") =
      (c6S, [Directive.answerCallback none false,
             Directive.sendMessage ACTION_NOT_ALLOWED]) :=
  (C6_unprefixed_status_checks c6S 9 ST_idle).1 (by decide) (by decide)

/-! ## C5: session-loss handling -/

/-- C5 (amended): only the upload flow implements the session-loss policy.
An upload tag-toggle or `upload_done` arriving in `upload.pdf.tags` with no
upload draft resets the status to `sys.menu.idle` and emits the
"session expired" directive.  The search flow recovers instead: a search
tag-toggle in `search.filter.select` with no draft silently treats the
missing draft as empty and creates a fresh draft containing the toggled
tag, leaving the status unchanged and emitting no expiry directive;
`search_apply` with no draft merely raises the "select at least one tag"
alert and changes nothing. -/
theorem C5_session_loss_policy (s : BotState) (u : Int) (tag : String) :
    (get_user_status s.db u = some ST_upload_tags →
      s.session.pdf_upload_stage u = none →
      callback_handler s u (CB_upload_tag ++ tag) =
        ({ s with db := set_user_status s.db u ST_idle },
         [Directive.answerCallback none false, Directive.sendMessage SESSION_EXPIRED,
          Directive.mainMenu])) ∧
    (get_user_status s.db u = some ST_upload_tags →
      s.session.pdf_upload_stage u = none →
      callback_handler s u CB_upload_done =
        ({ s with db := set_user_status s.db u ST_idle },
         [Directive.answerCallback none false, Directive.sendMessage SESSION_EXPIRED,
          Directive.mainMenu])) ∧
    (get_user_status s.db u = some ST_search_select →
      s.session.search_selected_tags u = none →
      callback_handler s u (CB_search_tag ++ tag) =
        ({ s with session := { s.session with
             search_selected_tags := setMap s.session.search_selected_tags u (some [tag]) } },
         [Directive.answerCallback none false,
          Directive.editTagMarkup purpose_search [tag]])) ∧
    (get_user_status s.db u = some ST_search_select →
      s.session.search_selected_tags u = none →
      callback_handler s u CB_search_apply =
        (s, [Directive.answerCallback none false,
             Directive.answerCallback (some SEARCH_REQUIRED_TAG) true])) := by
  refine ⟨fun h1 h2 => ?_, fun h1 h2 => ?_, fun h1 h2 => ?_, fun h1 h2 => ?_⟩
  · simp +decide [callback_handler, pyStartsWith_append, h1, h2]
  · simp +decide [callback_handler, h1, h2]
  · have hd1 : (CB_search_tag ++ tag).data.head? = some 's' :=
      head?_of_pyStartsWith _ CB_search_tag (pyStartsWith_append _ _) 's' (by decide)
    have f1 : pyStartsWith (CB_search_tag ++ tag) CB_upload_tag = false :=
      not_startsWith_of_head_ne _ CB_upload_tag 's' 'u' hd1 (by decide) (by decide)
    have f2 : CB_search_tag ++ tag ≠ CB_upload_done :=
      ne_of_head_ne _ CB_upload_done 's' 'u' hd1 (by decide) (by decide)
    have f3 : CB_search_tag ++ tag ≠ CB_upload_cancel :=
      ne_of_head_ne _ CB_upload_cancel 's' 'u' hd1 (by decide) (by decide)
    simp +decide [callback_handler, f1, f2, f3, pyStartsWith_append, pyDropChars_append,
      h1, h2]
  · simp +decide [callback_handler, h1, h2]

/-- C5 counterexample: user 7 is in `search.filter.select` with no search
draft (a lost session); the search tag-toggle neither resets the status to
`sys.menu.idle` nor emits a "session expired" directive — it recovers by
creating the draft `[subject:math]` and re-rendering the keyboard. -/
theorem C5_counterexample :
    get_user_status c5S.db 7 = some ST_search_select ∧
    c5S.session.search_selected_tags 7 = none ∧
    (callback_handler c5S 7 ("search_tag_subject:math")).1.session.search_selected_tags 7 =
      some [("subject:math")] ∧
    get_user_status (callback_handler c5S 7 ("search_tag_subject:math")).1.db 7 =
      some ST_search_select ∧
    (callback_handler c5S 7 ("search_tag_subject:math")).2 =
      [Directive.answerCallback none false,
       Directive.editTagMarkup purpose_search [("subject:math")]] := by decide

/-- C5 witness: an upload tag-toggle with a lost upload draft does reset
the user to the idle menu with the session-expired directive. -/
theorem C5_witness :
    callback_handler c5US 7 (CB_upload_tag ++ ("subject:math")) =
      ({ c5US with db := set_user_status c5US.db 7 ST_idle },
       [Directive.answerCallback none false, Directive.sendMessage SESSION_EXPIRED,
        Directive.mainMenu]) :=
  (C5_session_loss_policy c5US 7 ("subject:math")).1 (by decide) rfl

/-! ## C4: draft clearing on terminal transitions -/

/-- C4 (amended): after `upload_done` with a draft carrying at least one
tag, and after `upload_cancel` from either upload status, no upload draft
remains; after `search_cancel` no search draft remains; after
`search_apply` the search draft is cleared exactly when the query returned
no results — when results are non-empty the transition to
`search.results.page` leaves the search draft in place (it is only removed
later by `back_to_menu`, or overwritten on re-entering the search flow). -/
theorem C4_draft_clearing (s : BotState) (u : Int) :
    (∀ dr, get_user_status s.db u = some ST_upload_tags →
      s.session.pdf_upload_stage u = some dr → dr.tags ≠ [] →
      (callback_handler s u CB_upload_done).1.session.pdf_upload_stage u = none) ∧
    (get_user_status s.db u = some ST_upload_tags ∨ get_user_status s.db u = some ST_upload_file →
      (callback_handler s u CB_upload_cancel).1.session.pdf_upload_stage u = none) ∧
    (get_user_status s.db u = some ST_search_select →
      (callback_handler s u CB_search_cancel).1.session.search_selected_tags u = none) ∧
    (∀ fl, get_user_status s.db u = some ST_search_select →
      s.session.search_selected_tags u = some fl → fl ≠ [] →
      get_pdfs_by_multilevel_tags s.db fl = [] →
      (callback_handler s u CB_search_apply).1.session.search_selected_tags u = none) ∧
    (∀ fl, get_user_status s.db u = some ST_search_select →
      s.session.search_selected_tags u = some fl → fl ≠ [] →
      get_pdfs_by_multilevel_tags s.db fl ≠ [] →
      (callback_handler s u CB_search_apply).1.session.search_selected_tags u = some fl ∧
      get_user_status (callback_handler s u CB_search_apply).1.db u =
        (get_user_status (set_user_status s.db u ST_search_results) u)) := by
  refine ⟨fun dr h1 h2 h3 => ?_, fun h1 => ?_, fun h1 => ?_,
    fun fl h1 h2 h3 h4 => ?_, fun fl h1 h2 h3 h4 => ?_⟩
  · simp +decide [callback_handler, h1, h2, List.isEmpty_iff, h3, setMap]
  · rcases h1 with h1 | h1 <;> simp +decide [callback_handler, h1, setMap]
  · simp +decide [callback_handler, h1, setMap]
  · simp +decide [callback_handler, h1, h2, List.isEmpty_iff, h3, h4, setMap]
  · constructor <;>
      simp +decide [callback_handler, h1, h2, List.isEmpty_iff, h3, h4, setMap]

/-- C4 counterexample: user 7 applies the non-empty filter
`[subject:math]`; the query over the sample store is non-empty, the
transition completes to `search.results.page` — and the search draft is
still there. -/
theorem C4_counterexample :
    get_user_status c4S.db 7 = some ST_search_select ∧
    c4S.session.search_selected_tags 7 = some [("subject:math")] ∧
    get_pdfs_by_multilevel_tags c4S.db [("subject:math")] ≠ [] ∧
    get_user_status (callback_handler c4S 7 CB_search_apply).1.db 7 =
      some ST_search_results ∧
    (callback_handler c4S 7 CB_search_apply).1.session.search_selected_tags 7 =
      some [("subject:math")] := by decide

/-- C4 witness: cancelling the search from `search.filter.select` clears
the search draft. -/
theorem C4_witness :
    (callback_handler c4S 7 CB_search_cancel).1.session.search_selected_tags 7 = none :=
  (C4_draft_clearing c4S 7).2.2.1 (by decide)
